import Mathlib

/-!
# Verification of `src/util/result.hpp` (namespace `top1`)

Shallow embedding of the `top1::result<Ok, Err>` class and its combinator
API.  The class stores a `std::variant<Ok, Err>` (modelled as `α ⊕ ε`) and
every payload access in the source goes through `std::get`, which throws on
the wrong alternative; we model `std::get<Ok>` / `std::get<Err>` as
`Option`-valued operations (`none` = would throw) and each method as an
`Option`-valued computation, so that totality (the method never throws) is
the statement that it always returns `some`.

Each definition follows the corresponding member function of the source
line by line.  Where the source says `return *this;` in a context whose
result type carries a different Ok type (`map`'s Err branch and, mirrored,
`map_err`'s Ok branch), the only payload the converted value can carry is
the one of the unchanged type parameter, so the conversion is modelled by
extracting that payload.  The heterogeneous type parameters of
`operator||` / `or_else` (whose Ok branch converts the stored Ok payload
into the new result) are instantiated homogeneously in the Ok type, the
only instantiation for which the source's conversion exists for unrelated
types.
-/

namespace top1

/-- `top1::result<Ok, Err>`: a class holding `std::variant<Ok, Err> data`. -/
structure result (α ε : Type) : Type where
  data : α ⊕ ε
deriving DecidableEq

variable {α β γ ε η : Type}

/-- The constructor taking an `Ok` payload: `result(const Ok& ok) : data(ok)`. -/
def mk_ok (x : α) : result α ε := ⟨Sum.inl x⟩

/-- The constructor taking an `Err` payload: `result(const Err& err) : data(err)`. -/
def mk_err (e : ε) : result α ε := ⟨Sum.inr e⟩

/-- `std::holds_alternative<Ok>(data)`. -/
def is_ok (r : result α ε) : Bool := r.data.isLeft

/-- `std::holds_alternative<Err>(data)`. -/
def is_err (r : result α ε) : Bool := r.data.isRight

/-- `std::get<Ok>(data)`: yields the Ok payload, `none` models the
`std::bad_variant_access` throw on the wrong alternative. -/
def getOk (r : result α ε) : Option α :=
  match r.data with
  | Sum.inl x => some x
  | Sum.inr _ => none

/-- `std::get<Err>(data)`: yields the Err payload, `none` models the
`std::bad_variant_access` throw on the wrong alternative. -/
def getErr (r : result α ε) : Option ε :=
  match r.data with
  | Sum.inl _ => none
  | Sum.inr e => some e

/-- `ok()`: `if (is_ok()) return optional<Ok>(get<Ok>(data)); else return optional<Ok>();` -/
def ok (r : result α ε) : Option (Option α) :=
  if is_ok r then (getOk r).map some else some none

/-- `err()`: `if (is_err()) return optional<Err>(get<Err>(data)); else return optional<Err>();` -/
def err (r : result α ε) : Option (Option ε) :=
  if is_err r then (getErr r).map some else some none

/-- `map(op)`: `if (is_ok()) return invoke(op, get<Ok>(data)); return *this;`
The returned `result<U, Err>` is built from `op`'s value via the Ok
constructor in the first branch; `*this` carries its Err payload over in
the second. -/
def map (r : result α ε) (op : α → β) : Option (result β ε) :=
  if is_ok r then (getOk r).map (fun x => mk_ok (op x))
  else (getErr r).map mk_err

/-- `map_err(op)`: `if (is_err()) return invoke(op, get<Err>(data)); return *this;` -/
def map_err (r : result α ε) (op : ε → η) : Option (result α η) :=
  if is_err r then (getErr r).map (fun e => mk_err (op e))
  else (getOk r).map mk_ok

/-- `operator&&(r)`: `if (is_ok()) return r; else return get<Err>(data);`
The Err payload is built into the `result<Ok2, Err>` via its Err
constructor. -/
def opAnd (a : result α ε) (r : result β ε) : Option (result β ε) :=
  if is_ok a then some r
  else (getErr a).map mk_err

/-- `and_then(f, args...)`:
`if (is_ok()) return invoke(f, args...); else return get<Err>(data);`
The argument pack `args...` is modelled as one value `x : γ`; `f`'s
returned `result` is the value of the call in the Ok branch, and the Err
payload is built into it via the Err constructor in the other. -/
def and_then (a : result α ε) (f : γ → result β ε) (x : γ) : Option (result β ε) :=
  if is_ok a then some (f x)
  else (getErr a).map mk_err

/-- `operator||(r)`: `if (is_err()) return r; else return get<Ok>(data);`
The Ok payload is built into the returned result via its Ok constructor. -/
def opOr (a : result α ε) (r : result α ε) : Option (result α ε) :=
  if is_err a then some r
  else (getOk a).map mk_ok

/-- `or_else(f, args...)`:
`if (is_err()) return invoke(f, args...); else return get<Ok>(data);` -/
def or_else (a : result α ε) (f : γ → result α η) (x : γ) : Option (result α η) :=
  if is_err a then some (f x)
  else (getOk a).map mk_ok

/-- `get_or(const Ok& def)`: `if (is_ok()) return get<Ok>(data); else return def;` -/
def get_or (a : result α ε) (d : α) : Option α :=
  if is_ok a then getOk a else some d

/-- `get_or(Ok&& def)` (the rvalue overload):
`if (is_ok()) return get<Ok>(data); else return move(def);` — at the value
level the same selection as the const-reference overload. -/
def get_or_rv (a : result α ε) (d : α) : Option α :=
  if is_ok a then getOk a else some d

/-- `get_or_else(f, args...)`:
`if (is_ok()) return get<Ok>(data); else return invoke(f, args...);` -/
def get_or_else (a : result α ε) (f : γ → α) (x : γ) : Option α :=
  if is_ok a then getOk a else some (f x)

/-- `and_then` instrumented with the number of times `f` is invoked
(the side-effect counter of the spec's tests); the computed result is
exactly that of `and_then`. -/
def and_then_count (a : result α ε) (f : γ → result β ε) (x : γ) :
    Option (result β ε × Nat) :=
  if is_ok a then some (f x, 1)
  else (getErr a).map (fun e => (mk_err e, 0))

/-- `or_else` instrumented with the number of times `f` is invoked. -/
def or_else_count (a : result α ε) (f : γ → result α η) (x : γ) :
    Option (result α η × Nat) :=
  if is_err a then some (f x, 1)
  else (getOk a).map (fun v => (mk_ok v, 0))

/-- `map` instrumented with the number of times `op` is invoked. -/
def map_count (r : result α ε) (op : α → β) : Option (result β ε × Nat) :=
  if is_ok r then (getOk r).map (fun x => (mk_ok (op x), 1))
  else (getErr r).map (fun e => (mk_err e, 0))

/-- `map_err` instrumented with the number of times `op` is invoked. -/
def map_err_count (r : result α ε) (op : ε → η) : Option (result α η × Nat) :=
  if is_err r then (getErr r).map (fun e => (mk_err (op e), 1))
  else (getOk r).map (fun v => (mk_ok v, 0))

theorem and_then_count_fst (a : result α ε) (f : γ → result β ε) (x : γ) :
    (and_then_count a f x).map Prod.fst = and_then a f x := by
  rcases a with ⟨x | e⟩ <;> rfl

theorem or_else_count_fst (a : result α ε) (f : γ → result α η) (x : γ) :
    (or_else_count a f x).map Prod.fst = or_else a f x := by
  rcases a with ⟨x | e⟩ <;> rfl

theorem map_count_fst (r : result α ε) (op : α → β) :
    (map_count r op).map Prod.fst = map r op := by
  rcases r with ⟨x | e⟩ <;> rfl

theorem map_err_count_fst (r : result α ε) (op : ε → η) :
    (map_err_count r op).map Prod.fst = map_err r op := by
  rcases r with ⟨x | e⟩ <;> rfl

/-- Claim C1, as stated, is false: `and_then` invokes `f` with the supplied
arguments only, never with the Ok payload.  With the spec's own example
function and a supplied argument `0`, `Ok(5).and_then(f, 0)` evaluates to
`Err("neg")` (`f 0`), not to `f 5 = Ok(6)` as the claim requires. -/
theorem C1_left_identity_cex :
    ¬ (and_then (mk_ok 5 : result Nat String)
        (fun x : Nat => if 0 < x then mk_ok (x + 1) else mk_err "neg") 0 =
      some (mk_ok 6)) := by
  decide

/-- Claim C1 (amended): for `Ok(x)`, `and_then(f, args...)` equals `f`
applied to the supplied arguments, `f(args...)`; `f` does not receive the
Ok payload, so the left-identity form `Ok(x).and_then(f, x) = f(x)` holds
exactly when the payload is passed explicitly as the argument. -/
theorem C1_and_then_ok (x : α) (f : γ → result β ε) (a : γ)
    (g : α → result β ε) :
    and_then (mk_ok x : result α ε) f a = some (f a) ∧
    and_then (mk_ok x : result α ε) g x = some (g x) := by
  exact ⟨rfl, rfl⟩

/-- Claim C2, as stated, is false on the Err side: `or_else` invokes `f`
with the supplied arguments only, never with the Err payload.  With
`Err("err")`, `f = (s : String) => Ok(s.length)` and supplied argument
`""`, `or_else` yields `f "" = Ok(0)`, not `f "err" = Ok(3)` as the claim
requires. -/
theorem C2_or_else_cex :
    ¬ (or_else (mk_err "err" : result Nat String)
        (fun s : String => (mk_ok s.length : result Nat Nat)) "" =
      some (mk_ok 3)) := by
  decide

/-- Claim C2 (amended): for `Ok(x)`, `or_else(f, args...)` returns `Ok(x)`
and `f` is never invoked (invocation count 0); for `Err(e)`,
`or_else(f, args...)` equals `f` applied to the supplied arguments,
`f(args...)` — `f` does not receive the Err payload. -/
theorem C2_or_else_duality (x : α) (e : ε) (f g : γ → result α η) (a : γ) :
    or_else (mk_ok x : result α ε) f a = some (mk_ok x) ∧
    or_else_count (mk_ok x : result α ε) f a = some (mk_ok x, 0) ∧
    or_else (mk_err e : result α ε) g a = some (g a) := by
  exact ⟨rfl, rfl, rfl⟩

/-- Claim C3: `and_then(f, args...)` on an Ok result invokes `f` with
exactly the supplied arguments and returns `f`'s result directly (its type
is `f`'s return type); on an Err result it short-circuits, rebuilding the
original Err payload in the new result type without invoking `f`
(invocation count 0). -/
theorem C3_and_then_contract (x : α) (e : ε) (f : γ → result β ε) (a : γ) :
    and_then (mk_ok x : result α ε) f a = some (f a) ∧
    and_then (mk_err e : result α ε) f a = some (mk_err e) ∧
    and_then_count (mk_err e : result α ε) f a = some (mk_err e, 0) := by
  exact ⟨rfl, rfl, rfl⟩

/-- Claim C4: for every error payload `e`, `Err(e).and_then(f, args...)`
equals `Err(e)` (same payload), the result does not depend on `f`, and `f`
is never invoked (the invocation counter stays 0). -/
theorem C4_short_circuit (e : ε) (f g : γ → result β ε) (a : γ) :
    and_then (mk_err e : result α ε) f a = some (mk_err e) ∧
    and_then (mk_err e : result α ε) f a = and_then (mk_err e : result α ε) g a ∧
    and_then_count (mk_err e : result α ε) f a = some (mk_err e, 0) := by
  exact ⟨rfl, rfl, rfl⟩

/-- Claim C5: `map(f)` on `Ok(x)` yields `Ok(f x)` (Ok type becomes `f`'s
return type, Err type unchanged — visible in the type of `map`); on
`Err(e)` it yields `Err(e)` with the payload untouched and `f` never
invoked (invocation count 0). -/
theorem C5_map_contract (x : α) (e : ε) (f : α → β) :
    map (mk_ok x : result α ε) f = some (mk_ok (f x)) ∧
    map (mk_err e : result α ε) f = some (mk_err e) ∧
    map_count (mk_err e : result α ε) f = some (mk_err e, 0) := by
  exact ⟨rfl, rfl, rfl⟩

/-- Claim C6: functor laws for `map` — mapping the identity returns the
result unchanged; mapping `f` then `g` equals mapping their composition;
and on an Err result both sides are the unchanged `Err(e)` with neither
function invoked (invocation count 0). -/
theorem C6_functor_laws (r : result α ε) (e : ε) (f : α → β) (g : β → γ) :
    map r (fun y => y) = some r ∧
    (map r f).bind (fun s => map s g) = map r (fun y => g (f y)) ∧
    map_count (mk_err e : result α ε) f = some (mk_err e, 0) ∧
    map_count (mk_err e : result α ε) (fun y => g (f y)) = some (mk_err e, 0) := by
  rcases r with ⟨x | e'⟩ <;> exact ⟨rfl, rfl, rfl, rfl⟩

/-- Claim C7: for every result exactly one of `is_ok()` / `is_err()` is
true; `ok()` never throws and its optional is present (carrying the Ok
payload, `getOk`) precisely when `is_ok()`; symmetrically for `err()`. -/
theorem C7_inspection_consistency (r : result α ε) :
    is_ok r = !is_err r ∧
    ok r = some (getOk r) ∧ (getOk r).isSome = is_ok r ∧
    err r = some (getErr r) ∧ (getErr r).isSome = is_err r := by
  rcases r with ⟨x | e⟩ <;> exact ⟨rfl, rfl, rfl, rfl, rfl⟩

/-- Claim C8: totality — every operation of the API returns a value
(`isSome`), i.e., no `std::get` is ever reached on the wrong alternative:
each wrong-variant access is guarded by the matching discriminant check. -/
theorem C8_totality (r : result α ε) (b : result β ε) (c : result α ε)
    (f : α → β) (g : ε → η) (h : γ → result β ε) (k : γ → result α η)
    (m : γ → α) (a : γ) (d : α) :
    (ok r).isSome = true ∧ (err r).isSome = true ∧
    (map r f).isSome = true ∧ (map_err r g).isSome = true ∧
    (opAnd r b).isSome = true ∧ (and_then r h a).isSome = true ∧
    (opOr r c).isSome = true ∧ (or_else r k a).isSome = true ∧
    (get_or r d).isSome = true ∧ (get_or_rv r d).isSome = true ∧
    (get_or_else r m a).isSome = true := by
  rcases r with ⟨x | e⟩ <;>
    exact ⟨rfl, rfl, rfl, rfl, rfl, rfl, rfl, rfl, rfl, rfl, rfl⟩

/-- Claim C9: the eager pair — `a && b` yields `b` when `a` is Ok and
otherwise carries `a`'s Err payload into the result typed at `b`'s Ok
type; `a || b` yields `b` when `a` is Err and otherwise `a`'s Ok value;
including the spec's concrete examples `Ok(1) || Ok(2) = Ok(1)` and
`Err("x") || Ok(2) = Ok(2)`. -/
theorem C9_eager_pair (x : α) (e : ε) (b : result β ε) (c : result α ε) :
    opAnd (mk_ok x : result α ε) b = some b ∧
    opAnd (mk_err e : result α ε) b = some (mk_err e) ∧
    opOr (mk_err e : result α ε) c = some c ∧
    opOr (mk_ok x : result α ε) c = some (mk_ok x) ∧
    opOr (mk_ok 1 : result Nat String) (mk_ok 2) = some (mk_ok 1) ∧
    opOr (mk_err "x" : result Nat String) (mk_ok 2) = some (mk_ok 2) := by
  exact ⟨rfl, rfl, rfl, rfl, rfl, rfl⟩

/-- Claim C10: fallback extraction — both `get_or` overloads return the Ok
payload on an Ok result and the supplied default on an Err result,
including the spec's examples `Err("boom").get_or(42) = 42` and
`Ok(7).get_or(42) = 7`. -/
theorem C10_get_or (x : α) (e : ε) (d : α) :
    get_or (mk_ok x : result α ε) d = some x ∧
    get_or (mk_err e : result α ε) d = some d ∧
    get_or_rv (mk_ok x : result α ε) d = some x ∧
    get_or_rv (mk_err e : result α ε) d = some d ∧
    get_or (mk_err "boom" : result Nat String) 42 = some 42 ∧
    get_or (mk_ok 7 : result Nat String) 42 = some 7 := by
  exact ⟨rfl, rfl, rfl, rfl, rfl, rfl⟩

end top1
